import Mathlib

/-!
Shallow embedding of the introspection core of `johansten/graph-node`:
  * `src/thegraph-core/src/schema/ast.rs`      (schema lookups)
  * `src/thegraph-graphql-utils/src/introspection.rs` (introspection renderers)
  * `src/server/http/src/response.rs`          (HTTP status mapping)
Rust panics (`unimplemented!`, `expect`) are modelled by the `Res.panicked`
outcome; everything else is a pure function, mirroring the source.
-/

namespace GraphNode

/-- The generic GraphQL value tree (`graphql_parser::query::Value`).  The
`Float` variant (an `f64`) is omitted: no embedded code path constructs or
inspects a float.  Per spec §3 the `object` variant is an ordered map from
names to values; entries are kept in the order `object_value` received them. -/
inductive Value where
  | null
  | boolean (b : Bool)
  | int (n : Int)
  | string (s : String)
  | enum (name : String)
  | var (name : String)
  | list (values : List Value)
  | object (entries : List (String × Value))
deriving Repr

/-- Outcome of running a piece of Rust code that may panic
(`unimplemented!()` / `Option::expect`): either a value or a panic with the
panic message.  A panic aborts the whole computation. -/
inductive Res (α : Type) where
  | ok (v : α)
  | panicked (msg : String)
deriving Repr

/-- A GraphQL type reference (`graphql_parser::schema::Type`):
named / list / non-null. -/
inductive Type' where
  | namedType (name : String)
  | listType (inner : Type')
  | nonNullType (inner : Type')
deriving Repr

/-- Source type `graphql_parser::schema::InputValue`: an argument or input-object field. -/
structure InputValue where
  name : String
  description : Option String
  value_type : Type'
  default_value : Option Value
deriving Repr

/-- Source type `graphql_parser::schema::Field`. -/
structure Field where
  name : String
  description : Option String
  arguments : List InputValue
  field_type : Type'
deriving Repr

/-- Source type `graphql_parser::schema::ObjectType`. -/
structure ObjectType where
  name : String
  description : Option String
  implements_interfaces : List String
  fields : List Field
deriving Repr

/-- Source type `graphql_parser::schema::InterfaceType`. -/
structure InterfaceType where
  name : String
  description : Option String
  fields : List Field
deriving Repr

/-- Source type `graphql_parser::schema::EnumValue`. -/
structure EnumValue where
  name : String
  description : Option String
deriving Repr

/-- Source type `graphql_parser::schema::EnumType`. -/
structure EnumType where
  name : String
  description : Option String
  values : List EnumValue
deriving Repr

/-- Source type `graphql_parser::schema::ScalarType`. -/
structure ScalarType where
  name : String
  description : Option String
deriving Repr

/-- Source type `graphql_parser::schema::UnionType`. -/
structure UnionType where
  name : String
  description : Option String
  types : List String
deriving Repr

/-- Source type `graphql_parser::schema::InputObjectType`. -/
structure InputObjectType where
  name : String
  description : Option String
  fields : List InputValue
deriving Repr

/-- Source type `graphql_parser::schema::TypeDefinition`. -/
inductive TypeDefinition where
  | object (t : ObjectType)
  | interface (t : InterfaceType)
  | union (t : UnionType)
  | enum (t : EnumType)
  | scalar (t : ScalarType)
  | inputObject (t : InputObjectType)
deriving Repr

/-- Source type `graphql_parser::schema::DirectiveDefinition`.  Directive locations are
kept as their `as_str()` names. -/
structure DirectiveDefinition where
  name : String
  description : Option String
  locations : List String
  arguments : List InputValue
deriving Repr

/-- Source type `graphql_parser::schema::Definition`.  `schemaDefinition`/`typeExtension`
carry no payload here: every embedded function either skips them in a
`filter_map` or never looks at them. -/
inductive Definition where
  | typeDefinition (td : TypeDefinition)
  | directiveDefinition (dd : DirectiveDefinition)
  | schemaDefinition
  | typeExtension
deriving Repr

/-- Source type `graphql_parser::schema::Document`. -/
structure Document where
  definitions : List Definition
deriving Repr

/-! ## `src/thegraph-core/src/schema/ast.rs` -/

/-- Embeds `get_root_query_type`: the first top-level Object type named "Query". -/
def get_root_query_type (schema : Document) : Option ObjectType :=
  (schema.definitions.filterMap fun d =>
    match d with
    | .typeDefinition (.object t) =>
      if t.name = "Query" then some t else none
    | _ => none).head?

/-- Embeds `get_field_type`: first field of the object type with the given name. -/
def get_field_type (object_type : ObjectType) (name : String) : Option Field :=
  object_type.fields.find? fun field => decide (field.name = name)

/-- Embeds `get_named_type`: first type definition (of any kind) with the given name. -/
def get_named_type (schema : Document) (name : String) : Option TypeDefinition :=
  (schema.definitions.filterMap fun def' =>
    match def' with
    | .typeDefinition typedef => some typedef
    | _ => none).find? fun typedef =>
      match typedef with
      | .object t => decide (t.name = name)
      | .enum t => decide (t.name = name)
      | .inputObject t => decide (t.name = name)
      | .interface t => decide (t.name = name)
      | .scalar t => decide (t.name = name)
      | .union t => decide (t.name = name)

/-- Embeds `get_type_name`: the name of a type definition, regardless of kind. -/
def get_type_name (t : TypeDefinition) : String :=
  match t with
  | .enum t => t.name
  | .inputObject t => t.name
  | .interface t => t.name
  | .object t => t.name
  | .scalar t => t.name
  | .union t => t.name

/-! ## Value helpers -/

/-- Modelled from the spec: `object_value` lives in
`thegraph-graphql-utils/src/values.rs`, which is not among the provided
sources; per spec §3 the value tree's `Object` is an ordered map name→value
and §6 says key order is preserved, so `object_value` builds the object
keeping the entries in the order given. -/
def object_value (entries : List (String × Value)) : Value :=
  Value.object entries

/-- First entry with the given key (map lookup on the ordered entry list). -/
def entryLookup (entries : List (String × Value)) (k : String) : Option Value :=
  match entries with
  | [] => none
  | (k', v) :: rest => if k' = k then some v else entryLookup rest k

/-- Observation helper: the value stored under key `k` of an object value. -/
def valueField (v : Value) (k : String) : Option Value :=
  match v with
  | .object entries => entryLookup entries k
  | _ => none

/-- Observation helper: the keys of an object value, in emitted order. -/
def keysOf (v : Value) : List String :=
  match v with
  | .object entries => entries.map Prod.fst
  | _ => []

/-- PartialEq comparison against `Value::Null`
(the `td != &q::Value::Null` filter in `schema_types`). -/
def Value.isNull : Value → Bool
  | .null => true
  | _ => false

/-! ## Rust Debug and GraphQL literal formatting (for `defaultValue`) -/

/-- Rust `Debug` escaping of one character inside a quoted string. -/
def debugEscapeChar (c : Char) : String :=
  if c = '"' then "\\\""
  else if c = '\\' then "\\\\"
  else if c = '\n' then "\\n"
  else if c = '\t' then "\\t"
  else if c = '\r' then "\\r"
  else String.singleton c

/-- Rust `Debug` rendering of a string: quoted, with escapes. -/
def debugString (s : String) : String :=
  "\"" ++ String.join (s.toList.map debugEscapeChar) ++ "\""

/-- Comma-separated concatenation, as Rust's collection Debug impls emit. -/
def commaSep : List String → String
  | [] => ""
  | [s] => s
  | s :: rest => s ++ ", " ++ commaSep rest

mutual
/-- The Rust derived `Debug` formatting of `graphql_parser::query::Value`,
as `input_value` produces with the format! Debug specifier.  The source's
`Object` payload is a `BTreeMap`, whose Debug dump lists entries in key
order; here entries are rendered in stored order (no embedded code path
Debug-formats an object default, so the difference is unobservable). -/
def debugFormat : Value → String
  | .null => "Null"
  | .boolean b => "Boolean(" ++ (if b then "true" else "false") ++ ")"
  | .int n => "Int(Number(" ++ toString n ++ "))"
  | .string s => "String(" ++ debugString s ++ ")"
  | .enum name => "Enum(" ++ debugString name ++ ")"
  | .var name => "Variable(" ++ debugString name ++ ")"
  | .list values => "List([" ++ commaSep (debugFormatList values) ++ "])"
  | .object entries => "Object(\x7b" ++ commaSep (debugFormatEntries entries) ++ "\x7d)"

/-- Debug formatting of each element of a value list. -/
def debugFormatList : List Value → List String
  | [] => []
  | v :: vs => debugFormat v :: debugFormatList vs

/-- Debug formatting of each entry of an object payload. -/
def debugFormatEntries : List (String × Value) → List String
  | [] => []
  | (k, v) :: es => (debugString k ++ ": " ++ debugFormat v) :: debugFormatEntries es
end

mutual
/-- Modelled from the spec: §4.4 requires the default to be serialized
"using the schema language's own literal syntax so the value stays valid
GraphQL text".  This is that GraphQL value-literal syntax, for comparison
with what the code emits. -/
def gqlSerialize : Value → String
  | .null => "null"
  | .boolean b => if b then "true" else "false"
  | .int n => toString n
  | .string s => debugString s
  | .enum name => name
  | .var name => "$" ++ name
  | .list values => "[" ++ commaSep (gqlSerializeList values) ++ "]"
  | .object entries => "\x7b" ++ commaSep (gqlSerializeEntries entries) ++ "\x7d"

/-- GraphQL literal of each element of a list value. -/
def gqlSerializeList : List Value → List String
  | [] => []
  | v :: vs => gqlSerialize v :: gqlSerializeList vs

/-- GraphQL literal of each entry of an input-object value. -/
def gqlSerializeEntries : List (String × Value) → List String
  | [] => []
  | (k, v) :: es => (k ++ ": " ++ gqlSerialize v) :: gqlSerializeEntries es
end

/-! ## `src/thegraph-graphql-utils/src/introspection.rs`: type renderers -/

/-- Runs a possibly-panicking renderer over every list element, collecting
the results left to right; the first panic aborts the whole run (Rust
iterator `map` + `collect`). -/
def mapRes {α β : Type} (f : α → Res β) : List α → Res (List β)
  | [] => .ok []
  | a :: rest =>
    match f a with
    | .panicked msg => .panicked msg
    | .ok b =>
      match mapRes f rest with
      | .panicked msg => .panicked msg
      | .ok bs => .ok (b :: bs)

/-- Embeds `object_type_object`: kind/name/description plus `fields`/`interfaces`
placeholders (filled by a later resolver call). -/
def object_type_object (schema : Document) (object_type : ObjectType) : Value :=
  object_value [
    ("kind", Value.enum "OBJECT"),
    ("name", Value.string object_type.name),
    ("description",
      match object_type.description with
      | some s => Value.string s
      | none => Value.null),
    ("fields", Value.null),
    ("interfaces", Value.null)]

/-- Embeds `object_type_object_without_interfaces`: like `object_type_object` but
with no `interfaces` entry (cycle guard used for `possibleTypes`). -/
def object_type_object_without_interfaces (schema : Document)
    (object_type : ObjectType) : Value :=
  object_value [
    ("kind", Value.enum "OBJECT"),
    ("name", Value.string object_type.name),
    ("description",
      match object_type.description with
      | some s => Value.string s
      | none => Value.null),
    ("fields", Value.null)]

/-- Embeds `field_object`: one `__Field` object; note the extra `_parentTypeName`
entry carrying the enclosing type's name. -/
def field_object (schema : Document) (parent_type_name : String)
    (field : Field) : Value :=
  object_value [
    ("_parentTypeName", Value.string parent_type_name),
    ("name", Value.string field.name),
    ("description",
      match field.description with
      | some s => Value.string s
      | none => Value.null),
    ("args", Value.null),
    ("type", Value.null),
    ("isDeprecated", Value.boolean false),
    ("deprecationReason", Value.null)]

/-- Embeds `field_objects`: all fields of a type, in declaration order. -/
def field_objects (schema : Document) (parent_type_name : String)
    (fields : List Field) : Value :=
  Value.list (fields.map (field_object schema parent_type_name))

/-- Embeds `enum_value`: one `__EnumValue` object. -/
def enum_value (ev : EnumValue) : Value :=
  object_value [
    ("name", Value.string ev.name),
    ("description",
      match ev.description with
      | some s => Value.string s
      | none => Value.null),
    ("isDeprecated", Value.boolean false),
    ("deprecationReason", Value.null)]

/-- Embeds `enum_values`: all declared values of an enum, in declaration order. -/
def enum_values (enum_type : EnumType) : Value :=
  Value.list (enum_type.values.map enum_value)

/-- Embeds `enum_type_object`. -/
def enum_type_object (enum_type : EnumType) : Value :=
  object_value [
    ("kind", Value.enum "ENUM"),
    ("name", Value.string enum_type.name),
    ("description",
      match enum_type.description with
      | some s => Value.string s
      | none => Value.null),
    ("enumValues", Value.null)]

/-- Embeds `scalar_type_object`. -/
def scalar_type_object (scalar_type : ScalarType) : Value :=
  object_value [
    ("name", Value.string scalar_type.name),
    ("kind", Value.enum "SCALAR"),
    ("description",
      match scalar_type.description with
      | some s => Value.string s
      | none => Value.null),
    ("isDeprecated", Value.boolean false),
    ("deprecationReason", Value.null)]

/-- Embeds `interface_type_object`. -/
def interface_type_object (schema : Document)
    (interface_type : InterfaceType) : Value :=
  object_value [
    ("name", Value.string interface_type.name),
    ("kind", Value.enum "INTERFACE"),
    ("description",
      match interface_type.description with
      | some s => Value.string s
      | none => Value.null),
    ("fields", Value.null),
    ("possibleTypes", Value.null)]

/-- Embeds `input_object_type_object`. -/
def input_object_type_object (schema : Document)
    (input_object_type : InputObjectType) : Value :=
  object_value [
    ("name", Value.string input_object_type.name),
    ("kind", Value.enum "INPUT_OBJECT"),
    ("description",
      match input_object_type.description with
      | some s => Value.string s
      | none => Value.null),
    ("inputFields", Value.null)]

/-- Embeds `union_type_object`: the body is `unimplemented!()`, i.e. a panic. -/
def union_type_object (schema : Document) (union_object_type : UnionType) :
    Res Value :=
  .panicked "not implemented"

/-- Embeds `type_definition_object`: dispatch on the type-definition variant. -/
def type_definition_object (schema : Document) (typedef : TypeDefinition) :
    Res Value :=
  match typedef with
  | .object ot => .ok (object_type_object schema ot)
  | .enum et => .ok (enum_type_object et)
  | .scalar st => .ok (scalar_type_object st)
  | .inputObject iot => .ok (input_object_type_object schema iot)
  | .interface it => .ok (interface_type_object schema it)
  | .union ut => union_type_object schema ut

/-- Embeds `named_type_object`: resolve the name, panicking (`expect`) when the
schema does not define it. -/
def named_type_object (schema : Document) (name : String) : Res Value :=
  match get_named_type schema name with
  | some named_type => type_definition_object schema named_type
  | none => .panicked ("Failed to resolve named type in GraphQL schema: " ++ name)

/-- Embeds `type_object`: renders a type reference, one wrapper layer per
`List`/`NonNull` node.  The `listType`/`nonNullType` branches inline
`list_type_object`/`non_null_type_object` (defined just below; the match
here must recurse). -/
def type_object (schema : Document) : Type' → Res Value
  | .namedType s => named_type_object schema s
  | .listType inner =>
    match type_object schema inner with
    | .ok v => .ok (object_value [("kind", Value.enum "LIST"), ("ofType", v)])
    | .panicked msg => .panicked msg
  | .nonNullType inner =>
    match type_object schema inner with
    | .ok v => .ok (object_value [("kind", Value.enum "NON_NULL"), ("ofType", v)])
    | .panicked msg => .panicked msg

/-- Embeds `list_type_object`. -/
def list_type_object (schema : Document) (inner_type : Type') : Res Value :=
  match type_object schema inner_type with
  | .ok v => .ok (object_value [("kind", Value.enum "LIST"), ("ofType", v)])
  | .panicked msg => .panicked msg

/-- Embeds `non_null_type_object`. -/
def non_null_type_object (schema : Document) (inner_type : Type') : Res Value :=
  match type_object schema inner_type with
  | .ok v => .ok (object_value [("kind", Value.enum "NON_NULL"), ("ofType", v)])
  | .panicked msg => .panicked msg

/-- Embeds `input_value`: one `__InputValue` object; the default value is rendered
with the Debug formatter. -/
def input_value (schema : Document) (iv : InputValue) : Res Value :=
  match type_object schema iv.value_type with
  | .panicked msg => .panicked msg
  | .ok t =>
    .ok (object_value [
      ("name", Value.string iv.name),
      ("description",
        match iv.description with
        | some s => Value.string s
        | none => Value.null),
      ("type", t),
      ("defaultValue",
        match iv.default_value with
        | some v => Value.string (debugFormat v)
        | none => Value.null)])

/-- Embeds `input_values`: a list of `__InputValue` objects. -/
def input_values (schema : Document) (values : List InputValue) : Res Value :=
  match mapRes (input_value schema) values with
  | .ok vs => .ok (Value.list vs)
  | .panicked msg => .panicked msg

/-- Embeds `object_interfaces`: the interfaces an object type implements, each
resolved by name. -/
def object_interfaces (schema : Document) (object_type : ObjectType) : Res Value :=
  match mapRes (named_type_object schema) object_type.implements_interfaces with
  | .ok vs => .ok (Value.list vs)
  | .panicked msg => .panicked msg

/-- Embeds `possible_types_for_interface`: the Object definitions, in declaration
order, whose implements-list contains the interface's name, each rendered
without its own `interfaces` entry. -/
def possible_types_for_interface (schema : Document)
    (interface_type : InterfaceType) : Value :=
  Value.list
    ((((schema.definitions.filterMap fun d =>
        match d with
        | .typeDefinition (.object ot) => some ot
        | _ => none).filterMap fun ot =>
          ((ot.implements_interfaces.find? fun name =>
            decide (name = interface_type.name)).map fun _ => ot))).map
      fun ot => object_type_object_without_interfaces schema ot)

/-- Embeds `directive_locations`: the location names, in declaration order. -/
def directive_locations (directive : DirectiveDefinition) : Value :=
  Value.list (directive.locations.map fun name => Value.string name)

/-- Embeds `directive_object`: one `__Directive` object. -/
def directive_object (schema : Document) (directive : DirectiveDefinition) :
    Res Value :=
  match input_values schema directive.arguments with
  | .panicked msg => .panicked msg
  | .ok args =>
    .ok (object_value [
      ("name", Value.string directive.name),
      ("description",
        match directive.description with
        | some s => Value.string s
        | none => Value.null),
      ("locations", directive_locations directive),
      ("args", args)])

/-! ## `introspection.rs`: schema-level renderers and resolver dispatch -/

/-- Embeds `schema_object`: the `__Schema` object; every sub-field is a `Null`
placeholder (the calls filling them are commented out in the source) to be
resolved by a later resolver call. -/
def schema_object (schema : Document) : Value :=
  object_value [
    ("queryType", Value.null),
    ("mutationType", Value.null),
    ("types", Value.null),
    ("directives", Value.null)]

/-- Embeds `query_type`: the rendered root query type; `expect` panics when the
schema has no "Query" object type. -/
def query_type (schema : Document) : Res Value :=
  match get_root_query_type schema with
  | some t => .ok (object_type_object schema t)
  | none => .panicked "No Query type defined at the root of the GraphQL schema"

/-- Embeds `schema_types`: every type definition, in declaration order, rendered
by `type_definition_object`, dropping `Null` renders. -/
def schema_types (schema : Document) : Res Value :=
  match mapRes (type_definition_object schema)
      (schema.definitions.filterMap fun d =>
        match d with
        | .typeDefinition td => some td
        | _ => none) with
  | .ok tds => .ok (Value.list (tds.filter fun td => !td.isNull))
  | .panicked msg => .panicked msg

/-- Embeds `schema_directives`: every directive definition, in declaration order. -/
def schema_directives (schema : Document) : Res Value :=
  match mapRes (directive_object schema)
      (schema.definitions.filterMap fun d =>
        match d with
        | .directiveDefinition dd => some dd
        | _ => none) with
  | .ok dds => .ok (Value.list dds)
  | .panicked msg => .panicked msg

/-- Embeds `resolve_parent_type`: reads the given key of the parent object value,
treats it as a type name and resolves it in the schema.  The source's body
does not compile as written (it pattern-matches an extra `Option` layer and
passes a `q::Value` where a `Name` is expected); this follows the evident
intent: key present and a string, naming a defined type. -/
def resolve_parent_type (schema : Document) (field : String)
    (parent_value : Option Value) : Option (String × TypeDefinition) :=
  match parent_value with
  | some (.object values) =>
    match entryLookup values field with
    | some (.string name) =>
      match get_named_type schema name with
      | some typedef => some (name, typedef)
      | none => none
    | _ => none
  | _ => none

/-- Embeds `resolve_object_value`: singular introspection dispatch keyed on
(field name, type name); the Rust `match` tests its arms in order, embedded
here as an if-chain; the fall-through arm is `unimplemented!()`. -/
def resolve_object_value (schema : Document) (parent_value : Option Value)
    (field_name : String) (type_name : String) (object_type : ObjectType)
    (arguments : List (String × Value)) : Res Value :=
  if type_name = "__Schema" then .ok (schema_object schema)
  else if field_name = "queryType" ∧ type_name = "__Type" then query_type schema
  else if field_name = "mutationType" ∧ type_name = "__Type" then .ok Value.null
  else if field_name = "type" ∧ type_name = "__Type" then
    -- TODO in the source: the `type` lookup is unimplemented and yields Null
    .ok Value.null
  else .panicked "not implemented"

/-- Embeds `resolve_object_values`: plural introspection dispatch keyed on
(field name, type name); the fall-through arm is `unimplemented!()`.
The `args` arm mirrors the source's evident intent (its body names an
undeclared variable and so does not compile as written). -/
def resolve_object_values (schema : Document) (parent_value : Option Value)
    (field_name : String) (type_name : String) (object_type : ObjectType)
    (arguments : List (String × Value)) : Res Value :=
  if field_name = "types" ∧ type_name = "__Type" then schema_types schema
  else if field_name = "fields" ∧ type_name = "__Field" then
    match resolve_parent_type schema "name" parent_value with
    | some (name, .object ot) => .ok (field_objects schema name ot.fields)
    | _ => .ok Value.null
  else if field_name = "inputFields" ∧ type_name = "__InputValue" then .ok Value.null
  else if field_name = "interfaces" ∧ type_name = "__Type" then .ok Value.null
  else if field_name = "enumValues" ∧ type_name = "__EnumValue" then .ok Value.null
  else if field_name = "possibleTypes" ∧ type_name = "__Type" then .ok Value.null
  else if field_name = "args" ∧ type_name = "__InputValue" then
    match (resolve_parent_type schema "_parentTypeName" parent_value).map
        (fun p => p.1),
      (match parent_value with
       | some (.object values) =>
         match entryLookup values "name" with
         | some (.string n) => some n
         | _ => none
       | _ => none) with
    | some parent_type_name, some fname =>
      match get_named_type schema parent_type_name with
      | some (.object ot) =>
        match get_field_type ot fname with
        | some field => input_values schema field.arguments
        | _ => .ok Value.null
      | _ => .ok Value.null
    | _, _ => .ok Value.null
  else .panicked "not implemented"

/-! ## `src/server/http/src/response.rs`: HTTP status mapping -/

/-- Modelled from the spec: `QueryResult` lives in the `graph` crate, which
is not among the provided sources; per spec §6 and the tests in
`response.rs` it carries optional response data and an optional error list.
The error payload plays no role in the status code and is kept as plain
strings. -/
structure QueryResult where
  data : Option Value
  errors : Option (List String)
deriving Repr

/-- Modelled from the spec: `GraphQLServerError` lives in the `graph`
crate, which is not among the provided sources; `response.rs` and its tests
use the variants `ClientError`, `QueryError`, `InternalError` and
`Canceled`. -/
inductive GraphQLServerError where
  | clientError (msg : String)
  | queryError (msg : String)
  | internalError (msg : String)
  | canceled
deriving Repr

/-- Embeds `GraphQLResponse::status_code_from_result`; HTTP status codes
are modelled by their numeric value (OK = 200, BAD_REQUEST = 400,
INTERNAL_SERVER_ERROR = 500). -/
def status_code_from_result
    (result : Except GraphQLServerError QueryResult) : Nat :=
  match result with
  | .ok r =>
    match r.errors with
    | some _ => 400
    | none => 200
  | .error e =>
    match e with
    | .clientError _ => 400
    | .queryError _ => 400
    | _ => 500

/-! ## Observers used by the verification theorems -/

/-- Observer: the `__TypeKind` tag the spec expects for each category of
type definition. -/
def expected_kind : TypeDefinition → String
  | .object _ => "OBJECT"
  | .interface _ => "INTERFACE"
  | .union _ => "UNION"
  | .enum _ => "ENUM"
  | .scalar _ => "SCALAR"
  | .inputObject _ => "INPUT_OBJECT"

/-- Observer: is a type definition a Union definition? -/
def TypeDefinition.isUnion : TypeDefinition → Bool
  | .union _ => true
  | _ => false

/-- Observer: a named entry of a successfully rendered object value
(`none` on a panic or when the key is absent). -/
def okEntry (r : Res Value) (k : String) : Option Value :=
  match r with
  | .ok v => valueField v k
  | .panicked _ => none

/-- Observer: does the schema contain an Object type definition literally
named "Query"? -/
def hasQueryType (schema : Document) : Bool :=
  schema.definitions.any fun d =>
    match d with
    | .typeDefinition (.object t) => decide (t.name = "Query")
    | _ => false

/-- Observer: the per-definition selector inside `get_root_query_type`
(a top-level copy of its lambda, named so proofs can rewrite with it). -/
def pickQuery (d : Definition) : Option ObjectType :=
  match d with
  | .typeDefinition (.object t) => if t.name = "Query" then some t else none
  | _ => none

/-- Observer: is a definition an Object type definition literally named
"Query"? -/
def isQueryDef (d : Definition) : Bool :=
  match d with
  | .typeDefinition (.object t) => decide (t.name = "Query")
  | _ => false

/-- Observer: does the schema contain a Union type definition? -/
def containsUnionDef (schema : Document) : Bool :=
  schema.definitions.any fun d =>
    match d with
    | .typeDefinition (.union _) => true
    | _ => false

/-! ## Concrete schemas used as witnesses and counterexamples -/

/-- Concrete scalar definition for "String". -/
def strScalar : ScalarType := ⟨"String", none⟩

/-- Concrete one-definition schema declaring only the scalar "String". -/
def docString : Document :=
  ⟨[Definition.typeDefinition (TypeDefinition.scalar strScalar)]⟩

/-- Concrete field declaration `id: ID!`. -/
def idField : Field := ⟨"id", none, [], Type'.nonNullType (Type'.namedType "ID")⟩

/-- Concrete object type `type Query` with the single field `id: ID!`. -/
def otQuery : ObjectType := ⟨"Query", none, [], [idField]⟩

/-- Concrete schema declaring only `Query`. -/
def docQuery : Document :=
  ⟨[Definition.typeDefinition (TypeDefinition.object otQuery)]⟩

/-- Concrete interface `interface Node`. -/
def nodeInterface : InterfaceType := ⟨"Node", none, []⟩

/-- Concrete object type `type User implements Node`. -/
def userObject : ObjectType := ⟨"User", none, ["Node"], []⟩

/-- Concrete schema with an interface, one implementing object type and one
non-implementing object type. -/
def docNode : Document := ⟨[
  Definition.typeDefinition (TypeDefinition.interface nodeInterface),
  Definition.typeDefinition (TypeDefinition.object userObject),
  Definition.typeDefinition (TypeDefinition.object otQuery)]⟩

/-- Concrete enum `enum Color` with values RED and GREEN. -/
def colorEnum : EnumType := ⟨"Color", none, [⟨"RED", none⟩, ⟨"GREEN", none⟩]⟩

/-- Concrete schema with the Color enum and Query. -/
def docColor : Document := ⟨[
  Definition.typeDefinition (TypeDefinition.enum colorEnum),
  Definition.typeDefinition (TypeDefinition.object otQuery)]⟩

/-- Concrete union definition `union AB = A | B`. -/
def abUnion : UnionType := ⟨"AB", none, ["A", "B"]⟩

/-- Concrete schema containing a union definition. -/
def docUnion : Document := ⟨[
  Definition.typeDefinition (TypeDefinition.object otQuery),
  Definition.typeDefinition (TypeDefinition.union abUnion)]⟩

/-- Concrete input value `arg: String` with default literal `true` (this
layer never typechecks defaults against the declared type). -/
def boolDefaultArg : InputValue :=
  ⟨"arg", none, Type'.namedType "String", some (Value.boolean true)⟩

/-- The object that `input_value` renders for `boolDefaultArg` against
`docString`. -/
def boolDefaultArgObj : Value :=
  object_value [
    ("name", Value.string "arg"),
    ("description", Value.null),
    ("type", scalar_type_object strScalar),
    ("defaultValue", Value.string (debugFormat (Value.boolean true)))]

/-! ## General lemmas -/

/-- Lemma: `type_object` renders a list reference exactly via
`list_type_object`. -/
theorem type_object_listType (schema : Document) (inner : Type') :
    type_object schema (Type'.listType inner) = list_type_object schema inner := rfl

/-- Lemma: `type_object` renders a non-null reference exactly via
`non_null_type_object`. -/
theorem type_object_nonNullType (schema : Document) (inner : Type') :
    type_object schema (Type'.nonNullType inner) = non_null_type_object schema inner := rfl

/-! ## Claim C1 -/

/-- C1, corrected.  The original claim — resolving the introspection query
`__type(name:)` yields an object whose `kind` entry matches the type's
declared category — fails: the resolver's `("type", "__Type")` arm is a
stub that returns `Null` unconditionally.  What holds instead: the resolver
arm returns `Null`, while `type_definition_object`, applied directly to a
type definition that is not a Union, emits an object whose `kind` entry is
the matching category tag (OBJECT / INTERFACE / ENUM / SCALAR /
INPUT_OBJECT); a Union definition panics instead of rendering. -/
theorem C1_type_kind_dispatch (schema : Document) (td : TypeDefinition)
    (h : TypeDefinition.isUnion td = false) :
    okEntry (type_definition_object schema td) "kind" =
      some (Value.enum (expected_kind td)) ∧
    ∀ pv ot args, resolve_object_value schema pv "type" "__Type" ot args =
      Res.ok Value.null := by
  constructor
  · cases td with
    | object t => rfl
    | interface t => rfl
    | union t => exact Bool.noConfusion h
    | enum t => rfl
    | scalar t => rfl
    | inputObject t => rfl
  · intro pv ot args
    rfl

/-- C1 witness: the amended statement evaluated on the concrete Color enum
schema. -/
theorem C1_type_kind_dispatch_witness :
    okEntry (type_definition_object docColor (TypeDefinition.enum colorEnum)) "kind" =
      some (Value.enum "ENUM") ∧
    resolve_object_value docColor none "type" "__Type" otQuery [] = Res.ok Value.null :=
  ⟨(C1_type_kind_dispatch docColor (TypeDefinition.enum colorEnum) rfl).1,
   (C1_type_kind_dispatch docColor (TypeDefinition.enum colorEnum) rfl).2 none otQuery []⟩

/-- C1 counterexample: on the concrete Color enum schema, the resolver's
`("type", "__Type")` dispatch yields `Null`, which carries no `kind` entry
at all — not an object whose `kind` is ENUM. -/
theorem C1_counterexample :
    resolve_object_value docColor none "type" "__Type" otQuery [] = Res.ok Value.null ∧
    valueField Value.null "kind" = none :=
  ⟨rfl, rfl⟩

/-! ## Claim C2 -/

/-- C2, corrected.  The original claim — an unrecognized (field, type) pair
makes the dispatchers signal a structured internal error value identifying
the pair, and never panic — fails: the fall-through arm of both
`resolve_object_value` and `resolve_object_values` is `unimplemented!()`,
a panic whose fixed message "not implemented" names neither the field nor
the type.  What holds instead: for every pair outside the recognized arms,
both dispatchers panic with that message. -/
theorem C2_unrecognized_pair_panics (schema : Document) (pv : Option Value)
    (f t : String) (ot : ObjectType) (args : List (String × Value))
    (h1 : t ≠ "__Schema")
    (h2 : ¬(f = "queryType" ∧ t = "__Type"))
    (h3 : ¬(f = "mutationType" ∧ t = "__Type"))
    (h4 : ¬(f = "type" ∧ t = "__Type"))
    (h5 : ¬(f = "types" ∧ t = "__Type"))
    (h6 : ¬(f = "fields" ∧ t = "__Field"))
    (h7 : ¬(f = "inputFields" ∧ t = "__InputValue"))
    (h8 : ¬(f = "interfaces" ∧ t = "__Type"))
    (h9 : ¬(f = "enumValues" ∧ t = "__EnumValue"))
    (h10 : ¬(f = "possibleTypes" ∧ t = "__Type"))
    (h11 : ¬(f = "args" ∧ t = "__InputValue")) :
    resolve_object_value schema pv f t ot args = Res.panicked "not implemented" ∧
    resolve_object_values schema pv f t ot args = Res.panicked "not implemented" := by
  constructor
  · unfold resolve_object_value
    rw [if_neg h1, if_neg h2, if_neg h3, if_neg h4]
  · unfold resolve_object_values
    rw [if_neg h5, if_neg h6, if_neg h7, if_neg h8, if_neg h9, if_neg h10, if_neg h11]

/-- C2 witness: both dispatchers evaluated at the concrete unrecognized
pair ("color", "__Palette"). -/
theorem C2_unrecognized_pair_panics_witness :
    resolve_object_value docQuery none "color" "__Palette" otQuery [] =
      Res.panicked "not implemented" ∧
    resolve_object_values docQuery none "color" "__Palette" otQuery [] =
      Res.panicked "not implemented" :=
  C2_unrecognized_pair_panics docQuery none "color" "__Palette" otQuery []
    (by decide) (by decide) (by decide) (by decide) (by decide) (by decide)
    (by decide) (by decide) (by decide) (by decide) (by decide)

/-- C2 counterexample: at the concrete unrecognized pair
("frobnicate", "__Wibble") both dispatchers panic — the "never panic or
abort" part of the claim is false, and the outcome is the fixed panic
message, not a structured error identifying the pair. -/
theorem C2_counterexample :
    resolve_object_value docQuery none "frobnicate" "__Wibble" otQuery [] =
      Res.panicked "not implemented" ∧
    resolve_object_values docQuery none "frobnicate" "__Wibble" otQuery [] =
      Res.panicked "not implemented" :=
  ⟨rfl, rfl⟩

/-! ## Claim C3 -/

/-- C3, confirmed.  A `List`/`NonNull` wrapper node contributes exactly one
layer with only a `kind` tag (LIST / NON_NULL) and an `ofType` entry and no
name or description, outermost wrapper first; in particular the reference
`NonNull(List(NonNull(Named "String")))` (declared `[String!]!`) renders to
the exact triple-nested object around the render of the named type
"String". -/
theorem C3_wrapper_fidelity (schema : Document) (v : Value)
    (h : named_type_object schema "String" = Res.ok v) :
    (∀ t w, type_object schema t = Res.ok w →
      type_object schema (Type'.listType t) =
        Res.ok (object_value [("kind", Value.enum "LIST"), ("ofType", w)]) ∧
      type_object schema (Type'.nonNullType t) =
        Res.ok (object_value [("kind", Value.enum "NON_NULL"), ("ofType", w)])) ∧
    type_object schema
        (Type'.nonNullType (Type'.listType (Type'.nonNullType (Type'.namedType "String")))) =
      Res.ok (object_value [("kind", Value.enum "NON_NULL"),
        ("ofType", object_value [("kind", Value.enum "LIST"),
          ("ofType", object_value [("kind", Value.enum "NON_NULL"),
            ("ofType", v)])])]) := by
  have step : ∀ t w, type_object schema t = Res.ok w →
      type_object schema (Type'.listType t) =
        Res.ok (object_value [("kind", Value.enum "LIST"), ("ofType", w)]) ∧
      type_object schema (Type'.nonNullType t) =
        Res.ok (object_value [("kind", Value.enum "NON_NULL"), ("ofType", w)]) := by
    intro t w hw
    constructor
    · show (match type_object schema t with
        | .ok v => Res.ok (object_value [("kind", Value.enum "LIST"), ("ofType", v)])
        | .panicked msg => Res.panicked msg) = _
      rw [hw]
    · show (match type_object schema t with
        | .ok v => Res.ok (object_value [("kind", Value.enum "NON_NULL"), ("ofType", v)])
        | .panicked msg => Res.panicked msg) = _
      rw [hw]
  refine ⟨step, ?_⟩
  have h0 : type_object schema (Type'.namedType "String") = Res.ok v := h
  have h1 := (step _ _ h0).2
  have h2 := (step _ _ h1).1
  exact (step _ _ h2).2

/-- C3 witness: the wrapper laws and the `[String!]!` render evaluated on
the concrete schema declaring the scalar "String". -/
theorem C3_wrapper_fidelity_witness :
    type_object docString (Type'.listType (Type'.namedType "String")) =
      Res.ok (object_value [("kind", Value.enum "LIST"),
        ("ofType", scalar_type_object strScalar)]) ∧
    type_object docString
        (Type'.nonNullType (Type'.listType (Type'.nonNullType (Type'.namedType "String")))) =
      Res.ok (object_value [("kind", Value.enum "NON_NULL"),
        ("ofType", object_value [("kind", Value.enum "LIST"),
          ("ofType", object_value [("kind", Value.enum "NON_NULL"),
            ("ofType", scalar_type_object strScalar)])])]) :=
  ⟨((C3_wrapper_fidelity docString (scalar_type_object strScalar) rfl).1
      (Type'.namedType "String") (scalar_type_object strScalar) rfl).1,
   (C3_wrapper_fidelity docString (scalar_type_object strScalar) rfl).2⟩

/-! ## Claim C6 -/

/-- C6, corrected.  The original claim — resolving `enumValues` yields one
entry per declared value in declaration order with `isDeprecated` false and
`deprecationReason` null — fails: the dispatcher's
`("enumValues", "__EnumValue")` arm is a stub returning `Null`, and the
`enum_values` helper that would produce the list is never called.  What
holds instead: the dispatcher arm returns `Null`, while the (dead)
`enum_values` helper does render one entry per declared value in order,
each with `isDeprecated` false and `deprecationReason` null. -/
theorem C6_enum_values_shape (et : EnumType) :
    enum_values et = Value.list (et.values.map enum_value) ∧
    (∀ ev : EnumValue,
      valueField (enum_value ev) "isDeprecated" = some (Value.boolean false) ∧
      valueField (enum_value ev) "deprecationReason" = some Value.null) ∧
    ∀ schema pv ot args,
      resolve_object_values schema pv "enumValues" "__EnumValue" ot args =
        Res.ok Value.null :=
  ⟨rfl, fun _ => ⟨rfl, rfl⟩, fun _ _ _ _ => rfl⟩

/-- C6 counterexample: on the concrete Color enum schema the resolver
yields `Null` for `enumValues` — not the two-entry list the claim
requires (which `enum_values` would have produced). -/
theorem C6_counterexample :
    resolve_object_values docColor (some (enum_type_object colorEnum))
      "enumValues" "__EnumValue" otQuery [] = Res.ok Value.null ∧
    Value.null ≠ enum_values colorEnum :=
  ⟨rfl, fun hcontra => Value.noConfusion hcontra⟩

/-! ## Claim C7 -/

/-- C7, corrected.  The original claim — a present default value is
serialized in GraphQL's own literal syntax, never a raw debug dump — fails:
`input_value` renders the default with Rust's Debug formatter
(`format!` with the Debug specifier).  What holds instead: a present
default renders as the string of its Debug dump, and an absent default
yields null. -/
theorem C7_default_value_debug (schema : Document) (iv : InputValue) (v : Value)
    (h : input_value schema iv = Res.ok v) :
    valueField v "defaultValue" =
      some (match iv.default_value with
        | some d => Value.string (debugFormat d)
        | none => Value.null) := by
  unfold input_value at h
  cases hty : type_object schema iv.value_type with
  | panicked msg =>
    rw [hty] at h
    exact Res.noConfusion h
  | ok t =>
    rw [hty] at h
    injection h with h'
    rw [← h']
    rfl

/-- C7 witness: the amended statement evaluated on the concrete argument
whose default literal is `true`. -/
theorem C7_default_value_debug_witness :
    valueField boolDefaultArgObj "defaultValue" =
      some (Value.string (debugFormat (Value.boolean true))) :=
  C7_default_value_debug docString boolDefaultArg boolDefaultArgObj rfl

/-- C7 counterexample: the default literal `true` renders as the Debug
dump "Boolean(true)", while GraphQL's own literal syntax for it is
"true" — the rendered text differs from the GraphQL serialization and is
not a GraphQL value literal. -/
theorem C7_counterexample :
    input_value docString boolDefaultArg = Res.ok boolDefaultArgObj ∧
    valueField boolDefaultArgObj "defaultValue" =
      some (Value.string "Boolean(true)") ∧
    gqlSerialize (Value.boolean true) = "true" ∧
    ("Boolean(true)" : String) ≠ "true" :=
  ⟨rfl, rfl, rfl, by decide⟩

/-! ## Claim C8 -/

/-- C8, corrected.  The original claim — a `__Field` object contains only
the six user-visible introspection keys, with the resolution context
carried alongside the value tree and never embedded in the emitted
object — fails: `field_object` embeds the enclosing type's name as an
extra `_parentTypeName` first key.  What holds instead: the emitted object
has exactly the key sequence `_parentTypeName`, name, description, args,
type, isDeprecated, deprecationReason, with `_parentTypeName` holding the
enclosing type's name. -/
theorem C8_field_object_keys (schema : Document) (parent_type_name : String)
    (fld : Field) :
    keysOf (field_object schema parent_type_name fld) =
      ["_parentTypeName", "name", "description", "args", "type",
       "isDeprecated", "deprecationReason"] ∧
    valueField (field_object schema parent_type_name fld) "_parentTypeName" =
      some (Value.string parent_type_name) :=
  ⟨rfl, rfl⟩

/-- C8 counterexample: the `__Field` object emitted for the concrete field
`id` of `Query` does not have only the six user-visible keys — it carries
the context key `_parentTypeName` holding "Query". -/
theorem C8_counterexample :
    keysOf (field_object docQuery "Query" idField) ≠
      ["name", "description", "args", "type", "isDeprecated", "deprecationReason"] ∧
    valueField (field_object docQuery "Query" idField) "_parentTypeName" =
      some (Value.string "Query") :=
  ⟨by decide, rfl⟩

/-! ## Claim C9 -/

/-- C9, corrected.  The original claim — 200 for every successful result
even if its data carries partial-failure markers, 400 for
ClientError/QueryError, 500 for internal errors — fails on the first part:
a successful (`Ok`) result that carries errors (GraphQL's partial-failure
shape: data plus errors) is mapped to 400, not 200.  What holds instead:
200 for an `Ok` result with no errors, 400 for an `Ok` result carrying
errors, 400 for ClientError/QueryError, 500 for every other server error
(InternalError, Canceled). -/
theorem C9_status_codes :
    (∀ r : QueryResult, r.errors = none →
      status_code_from_result (Except.ok r) = 200) ∧
    (∀ (r : QueryResult) (es : List String), r.errors = some es →
      status_code_from_result (Except.ok r) = 400) ∧
    (∀ m, status_code_from_result
      (Except.error (GraphQLServerError.clientError m)) = 400) ∧
    (∀ m, status_code_from_result
      (Except.error (GraphQLServerError.queryError m)) = 400) ∧
    (∀ m, status_code_from_result
      (Except.error (GraphQLServerError.internalError m)) = 500) ∧
    status_code_from_result (Except.error GraphQLServerError.canceled) = 500 := by
  refine ⟨?_, ?_, fun m => rfl, fun m => rfl, fun m => rfl, rfl⟩
  · intro r hr
    show (match r.errors with
      | some _ => 400
      | none => 200) = 200
    rw [hr]
  · intro r es hr
    show (match r.errors with
      | some _ => 400
      | none => 200) = 400
    rw [hr]

/-- C9 witness: the amended status mapping evaluated at concrete
outcomes. -/
theorem C9_status_codes_witness :
    status_code_from_result (Except.ok ⟨some (Value.object []), none⟩) = 200 ∧
    status_code_from_result (Except.ok ⟨some (Value.object []), some ["e"]⟩) = 400 ∧
    status_code_from_result (Except.error (GraphQLServerError.clientError "c")) = 400 ∧
    status_code_from_result (Except.error (GraphQLServerError.internalError "i")) = 500 :=
  ⟨C9_status_codes.1 ⟨some (Value.object []), none⟩ rfl,
   C9_status_codes.2.1 ⟨some (Value.object []), some ["e"]⟩ ["e"] rfl,
   C9_status_codes.2.2.1 "c",
   C9_status_codes.2.2.2.2.1 "i"⟩

/-- C9 counterexample: a successful result whose response carries data
together with partial-failure errors is mapped to 400, not the 200 the
claim requires. -/
theorem C9_counterexample :
    status_code_from_result
      (Except.ok ⟨some (Value.object []), some ["partial failure"]⟩) = 400 ∧
    (400 : Nat) ≠ 200 :=
  ⟨rfl, by decide⟩

/-! ## Claim C10 -/

/-- C10, confirmed.  For every schema containing at least one Union type
definition, rendering the `types` list panics: `type_definition_object`
reaches `union_type_object`, whose body is `unimplemented!()`, so both
`schema_types` and the resolver's `("types", "__Type")` arm end in the
panic outcome instead of returning a value. -/
theorem C10_union_breaks_schema_types (schema : Document)
    (h : containsUnionDef schema = true) :
    schema_types schema = Res.panicked "not implemented" ∧
    ∀ pv ot args, resolve_object_values schema pv "types" "__Type" ot args =
      Res.panicked "not implemented" := by
  have hex : ∃ td ∈ (schema.definitions.filterMap fun d =>
      match d with
      | Definition.typeDefinition td => some td
      | _ => none), TypeDefinition.isUnion td = true := by
    rw [containsUnionDef, List.any_eq_true] at h
    obtain ⟨d, hd, hmatch⟩ := h
    cases d with
    | typeDefinition td =>
      cases td with
      | union ut =>
        exact ⟨TypeDefinition.union ut, List.mem_filterMap.mpr ⟨_, hd, rfl⟩, rfl⟩
      | object t => exact Bool.noConfusion hmatch
      | interface t => exact Bool.noConfusion hmatch
      | enum t => exact Bool.noConfusion hmatch
      | scalar t => exact Bool.noConfusion hmatch
      | inputObject t => exact Bool.noConfusion hmatch
    | directiveDefinition dd => exact Bool.noConfusion hmatch
    | schemaDefinition => exact Bool.noConfusion hmatch
    | typeExtension => exact Bool.noConfusion hmatch
  have nonunion : ∀ td : TypeDefinition, TypeDefinition.isUnion td = false →
      ∃ v, type_definition_object schema td = Res.ok v := by
    intro td h0
    cases td with
    | object t => exact ⟨_, rfl⟩
    | interface t => exact ⟨_, rfl⟩
    | enum t => exact ⟨_, rfl⟩
    | scalar t => exact ⟨_, rfl⟩
    | inputObject t => exact ⟨_, rfl⟩
    | union t => exact Bool.noConfusion h0
  have main : ∀ l : List TypeDefinition,
      (∃ td ∈ l, TypeDefinition.isUnion td = true) →
      mapRes (type_definition_object schema) l = Res.panicked "not implemented" := by
    intro l
    induction l with
    | nil =>
      rintro ⟨td, htd, _⟩
      exact absurd htd (List.not_mem_nil td)
    | cons hd tl ih =>
      rintro ⟨td, htd, hu⟩
      by_cases hhd : TypeDefinition.isUnion hd = true
      · cases hd with
        | union ut => rfl
        | object t => exact Bool.noConfusion hhd
        | interface t => exact Bool.noConfusion hhd
        | enum t => exact Bool.noConfusion hhd
        | scalar t => exact Bool.noConfusion hhd
        | inputObject t => exact Bool.noConfusion hhd
      · obtain ⟨v, hv⟩ := nonunion hd (Bool.not_eq_true _ ▸ hhd)
        have htl : ∃ td ∈ tl, TypeDefinition.isUnion td = true := by
          rcases List.mem_cons.mp htd with heq | hmem
          · exact absurd (heq ▸ hu) hhd
          · exact ⟨td, hmem, hu⟩
        have hrec := ih htl
        simp only [mapRes]
        rw [hv, hrec]
  constructor
  · unfold schema_types
    rw [main _ hex]
  · intro pv ot args
    show schema_types schema = Res.panicked "not implemented"
    unfold schema_types
    rw [main _ hex]

/-- C10 witness: the types list panics on the concrete schema containing
the union `AB`. -/
theorem C10_union_breaks_schema_types_witness :
    schema_types docUnion = Res.panicked "not implemented" :=
  (C10_union_breaks_schema_types docUnion rfl).1

/-! ## Claim C4 -/

/-- C4, corrected.  The original claim — resolving the `possibleTypes`
introspection field on an interface's rendered type yields exactly the
Object definitions whose implements-list contains the interface's name, in
declaration order — fails: the dispatcher's `("possibleTypes", "__Type")`
arm is a stub returning `Null`, and the `possible_types_for_interface`
helper that computes the list is never called.  What holds instead: the
dispatcher arm returns `Null`, while the (dead)
`possible_types_for_interface` helper does compute exactly the Object
definitions implementing the interface, in declaration order, none missing
and none extra. -/
theorem C4_possible_types (schema : Document) (it : InterfaceType) :
    possible_types_for_interface schema it =
      Value.list (((schema.definitions.filterMap fun d =>
          match d with
          | Definition.typeDefinition (TypeDefinition.object ot) => some ot
          | _ => none).filter fun ot =>
            decide (it.name ∈ ot.implements_interfaces)).map
        (object_type_object_without_interfaces schema)) ∧
    ∀ pv ot args, resolve_object_values schema pv "possibleTypes" "__Type" ot args =
      Res.ok Value.null := by
  constructor
  · have guard_eq : ∀ ot : ObjectType,
        ((ot.implements_interfaces.find? fun name =>
          decide (name = it.name)).map fun _ => ot) =
        if it.name ∈ ot.implements_interfaces then some ot else none := by
      intro ot
      by_cases hmem : it.name ∈ ot.implements_interfaces
      · rw [if_pos hmem]
        have hsome : (ot.implements_interfaces.find? fun name =>
            decide (name = it.name)).isSome := by
          rw [List.find?_isSome]
          exact ⟨it.name, hmem, by simp⟩
        obtain ⟨a, ha⟩ := Option.isSome_iff_exists.mp hsome
        rw [ha]
        rfl
      · rw [if_neg hmem]
        have hnone : (ot.implements_interfaces.find? fun name =>
            decide (name = it.name)) = none := by
          rw [List.find?_eq_none]
          intro x hx
          simp only [decide_eq_true_eq]
          intro he
          exact hmem (he ▸ hx)
        rw [hnone]
        rfl
    have key : ∀ L : List ObjectType,
        (L.filterMap fun ot =>
          ((ot.implements_interfaces.find? fun name =>
            decide (name = it.name)).map fun _ => ot)) =
        L.filter fun ot => decide (it.name ∈ ot.implements_interfaces) := by
      intro L
      induction L with
      | nil => rfl
      | cons hd tl ih =>
        by_cases hmem : it.name ∈ hd.implements_interfaces <;>
          simp [List.filterMap_cons, List.filter_cons, guard_eq hd, hmem, ih]
    unfold possible_types_for_interface
    rw [key]
  · intro pv ot args
    rfl

/-- C4 counterexample: on the concrete Node/User schema the resolver yields
`Null` for `possibleTypes` — not the one-element list (the render of
`User`, the only implementing Object type) that the claim requires and
that `possible_types_for_interface` would have produced. -/
theorem C4_counterexample :
    resolve_object_values docNode (some (interface_type_object docNode nodeInterface))
      "possibleTypes" "__Type" otQuery [] = Res.ok Value.null ∧
    possible_types_for_interface docNode nodeInterface =
      Value.list [object_type_object_without_interfaces docNode userObject] ∧
    Value.null ≠ Value.list [object_type_object_without_interfaces docNode userObject] :=
  ⟨rfl, rfl, fun hcontra => Value.noConfusion hcontra⟩

/-! ## Claim C5 -/

/-- C5, confirmed.  `get_root_query_type` returns `some` exactly when the
schema declares a top-level Object type literally named "Query" (and the
returned type is such a declaration from the schema), and resolving the
`queryType` introspection field yields the rendered root type, whose `name`
entry is "Query".  (The eagerly-built `__schema` object carries a `Null`
placeholder for `queryType` by design; the entry is produced by this later
resolver call.) -/
theorem C5_root_query_type (schema : Document) :
    (get_root_query_type schema = none ↔ hasQueryType schema = false) ∧
    (hasQueryType schema = true →
      (∃ qt, get_root_query_type schema = some qt ∧ qt.name = "Query" ∧
        Definition.typeDefinition (TypeDefinition.object qt) ∈ schema.definitions) ∧
      ∀ pv ot args,
        okEntry (resolve_object_value schema pv "queryType" "__Type" ot args) "name" =
          some (Value.string "Query")) := by
  have pick_isSome : ∀ d : Definition, isQueryDef d = (pickQuery d).isSome := by
    intro d
    cases d with
    | typeDefinition td =>
      cases td with
      | object t =>
        by_cases ht : t.name = "Query" <;> simp [pickQuery, isQueryDef, ht]
      | interface t => rfl
      | union t => rfl
      | enum t => rfl
      | scalar t => rfl
      | inputObject t => rfl
    | directiveDefinition dd => rfl
    | schemaDefinition => rfl
    | typeExtension => rfl
  have pick_sound : ∀ (d : Definition) (t : ObjectType), pickQuery d = some t →
      t.name = "Query" ∧ d = Definition.typeDefinition (TypeDefinition.object t) := by
    intro d t h
    cases d with
    | typeDefinition td =>
      cases td with
      | object ot =>
        have h' : (if ot.name = "Query" then some ot else none) = some t := h
        by_cases ht : ot.name = "Query"
        · rw [if_pos ht] at h'
          injection h' with h''
          subst h''
          exact ⟨ht, rfl⟩
        · rw [if_neg ht] at h'
          exact Option.noConfusion h'
      | interface t' => exact Option.noConfusion h
      | union t' => exact Option.noConfusion h
      | enum t' => exact Option.noConfusion h
      | scalar t' => exact Option.noConfusion h
      | inputObject t' => exact Option.noConfusion h
    | directiveDefinition dd => exact Option.noConfusion h
    | schemaDefinition => exact Option.noConfusion h
    | typeExtension => exact Option.noConfusion h
  have main : ∀ l : List Definition,
      (((l.filterMap pickQuery).head? = none) ↔ (l.any isQueryDef = false)) ∧
      ((l.any isQueryDef = true) →
        ∃ qt, (l.filterMap pickQuery).head? = some qt ∧ qt.name = "Query" ∧
          Definition.typeDefinition (TypeDefinition.object qt) ∈ l) := by
    intro l
    induction l with
    | nil => exact ⟨by simp, by simp⟩
    | cons hd tl ih =>
      rcases Option.eq_none_or_eq_some (pickQuery hd) with hpick | ⟨t, hpick⟩
      · have hq : isQueryDef hd = false := by
          rw [pick_isSome hd, hpick]
          rfl
        constructor
        · simp only [List.filterMap_cons, List.any_cons, hpick, hq, Bool.false_or]
          exact ih.1
        · intro hany
          simp only [List.any_cons, hq, Bool.false_or] at hany
          obtain ⟨qt, h1, h2, h3⟩ := ih.2 hany
          refine ⟨qt, ?_, h2, List.mem_cons_of_mem _ h3⟩
          simp only [List.filterMap_cons, hpick]
          exact h1
      · have hq : isQueryDef hd = true := by
          rw [pick_isSome hd, hpick]
          rfl
        obtain ⟨hname, hdef⟩ := pick_sound hd t hpick
        constructor
        · simp [List.filterMap_cons, List.any_cons, hpick, hq]
        · intro _
          refine ⟨t, ?_, hname, by rw [hdef]; exact List.mem_cons_self _ _⟩
          simp only [List.filterMap_cons, hpick]
          rfl
  constructor
  · exact (main schema.definitions).1
  · intro hq
    obtain ⟨qt, h1, h2, h3⟩ := (main schema.definitions).2 hq
    refine ⟨⟨qt, h1, h2, h3⟩, ?_⟩
    intro pv ot args
    show okEntry (query_type schema) "name" = some (Value.string "Query")
    unfold query_type
    have hroot : get_root_query_type schema = some qt := h1
    rw [hroot]
    show some (Value.string qt.name) = some (Value.string "Query")
    rw [h2]

/-- C5 witness: on the concrete schema declaring `type Query`, the root
query type is found and the `queryType` resolver call yields an object
named "Query". -/
theorem C5_root_query_type_witness :
    (get_root_query_type docQuery).isSome = true ∧
    okEntry (resolve_object_value docQuery none "queryType" "__Type" otQuery []) "name" =
      some (Value.string "Query") := by
  obtain ⟨⟨qt, hqt, _, _⟩, hres⟩ := (C5_root_query_type docQuery).2 rfl
  exact ⟨by rw [hqt]; rfl, hres none otQuery []⟩

end GraphNode
